import Mathlib

/-!
Shallow embedding of the log-pulse repository (Go) and proofs about its
behaviour.

The repository contains two generations of the same product:
* Generation 1 ("direct tail"): `config.go`, `log_tracker.go` (first unit,
  `LogTracker`), `monitor.go` (`Monitor`, `createTracker`, `genCallbacks`).
* Generation 2 ("harvester-based"): the FileBeat-style configuration module
  (`CommandConfig`, `TimeoutConfig`, `CollectorConfig`, `ParseConfig`,
  `DefaultProspectorConfig`, `setProspectorDefaults`) and
  `log_tracker.go` (second unit: `Collector`, `CollectorOutleter`,
  `Collection`).

Modelling conventions:
* Go `time.Duration` values are `Int` nanoseconds.
* A compiled regular expression (`*regexp.Regexp`) is modelled by its
  `MatchString` behaviour, a function `String → Bool`.
* Channels / goroutines are modelled by a step function over an explicit
  state: each iteration of a `select` loop handles exactly one event and
  returns the new state together with the externally observable actions
  it performed (commands launched, callbacks invoked), and whether the
  loop keeps running.
* A Go `time.Ticker` is modelled by a `TickerState` carrying whether a
  ticker object exists (`ticker != nil`), its period, and a generation
  counter that is bumped every time the code replaces the ticker with a
  freshly created one (`time.NewTicker`).
* Launching an external process (`exec.Cmd.Start`) is a fire-and-forget
  side effect; it is recorded as an emitted action.  Where a claim is
  about the launch *outcome*, the outcome is supplied by an oracle
  `launchOk : CommandConfig → Bool` and the code's discarding of the
  returned error is made explicit.
-/

namespace LogPulse

/-! ## Shared data model -/

/-- `CommandConfig` (config.go lines 10-14 and the Generation 2
configuration module lines 217-220): one external command.  An empty
`Program` means "no command configured". -/
structure CommandConfig where
  Program : String
  Args : List String
deriving DecidableEq, Repr

/-- Generation 1 `LogConfig` (config.go lines 18-41): one monitored file.
`Timeout` is in seconds; `Timeout ≤ 0` disables timeout tracking. -/
structure LogConfig where
  File : String
  Pattern : String
  Command : CommandConfig
  Timeout : Int
  TimeoutOnce : Bool
  TimeoutCommand : CommandConfig
  MustExist : Bool
  Poll : Bool
  Pipe : Bool
  MaxLineSize : Int
deriving DecidableEq, Repr

/-- Generation 2 `TimeoutConfig` (configuration module lines 238-242).
`Interval` is a `time.Duration` in nanoseconds. -/
structure TimeoutConfig where
  Command : CommandConfig
  Interval : Int
  Once : Bool
deriving DecidableEq, Repr

/-- Generation 2 `CollectorConfig` (configuration module lines 248-254). -/
structure CollectorConfig where
  type : String
  Paths : List String
  Pattern : String
  Command : CommandConfig
  Timeout : TimeoutConfig
deriving DecidableEq, Repr

/-- One nanosecond-denominated millisecond (Go `time.Millisecond`). -/
def millisecond : Int := 1000000

/-- One nanosecond-denominated second (Go `time.Second`). -/
def second : Int := 1000000000

/-! ## Observable actions of the run loops -/

/-- Externally observable actions a run loop or callback performs. -/
inductive Action where
  /-- the command was handed to the OS for an asynchronous, fire-and-forget
  launch (`Cmd().Start()` / `CommandConfig.Start()`) -/
  | startCommand (cmd : CommandConfig)
  /-- the `OnPattern` hook was invoked with the matching line -/
  | invokeOnPattern (line : String)
  /-- the `OnTimeout` hook was invoked -/
  | invokeOnTimeout
  /-- the `OnClose` hook was invoked -/
  | invokeOnClose
deriving DecidableEq, Repr

/-- Whether the loop keeps running after the step (`halt` corresponds to
the `return` in the stop-signal branch). -/
inductive LoopControl where
  | next
  | halt
deriving DecidableEq, Repr

/-! ## Generation 1 — LogTracker (log_tracker.go, first unit) -/

/-- State of the tracker's / collector's ticker.  `armed` is
`ticker != nil`; `interval` is the period of the armed ticker;
`generation` counts how many `time.NewTicker` calls produced the current
ticker (0 when no ticker was ever created). -/
structure TickerState where
  armed : Bool
  interval : Int
  generation : Nat
deriving DecidableEq, Repr

/-- `LogTracker` (log_tracker.go lines 24-40).  The compiled pattern is
modelled by its `MatchString` function; the three optional callback hooks
are modelled by presence flags plus emitted actions (a `nil` hook is
simply not invoked). -/
structure LogTracker where
  FileName : String
  Pattern : String → Bool
  Timeout : Int
  TimeoutOnce : Bool
  hasOnPattern : Bool
  hasOnTimeout : Bool
  hasOnClose : Bool

/-- Ticker initialization at the top of `LogTracker.Track`
(log_tracker.go lines 53-61): a fresh ticker at period `Timeout` when
`Timeout > 0`, otherwise a channel that never fires (no ticker object). -/
def trackInit (lt : LogTracker) : TickerState :=
  if lt.Timeout > 0 then ⟨true, lt.Timeout, 1⟩ else ⟨false, 0, 0⟩

/-- `LogTracker.ResetTimeout` (log_tracker.go lines 90-96): if a ticker
exists, stop it and create a fresh one at the same period `lt.Timeout`;
otherwise do nothing. -/
def LogTracker.ResetTimeout (lt : LogTracker) (s : TickerState) : TickerState :=
  if s.armed then ⟨true, lt.Timeout, s.generation + 1⟩ else s

/-- The three events the `select` in `LogTracker.Track` can wake up on
(log_tracker.go lines 63-86). -/
inductive TrackEvent where
  | line (text : String)
  | timerFire
  | stopSignal
deriving DecidableEq, Repr

/-- One iteration of the `for { select { ... } }` loop in
`LogTracker.Track` (log_tracker.go lines 63-86). -/
def LogTracker.trackStep (lt : LogTracker) (s : TickerState) (ev : TrackEvent) :
    TickerState × List Action × LoopControl :=
  match ev with
  | .line text =>
      if lt.Pattern text then
        (lt.ResetTimeout s,
         if lt.hasOnPattern then [Action.invokeOnPattern text] else [],
         LoopControl.next)
      else
        (s, [], LoopControl.next)
  | .timerFire =>
      (s, if lt.hasOnTimeout then [Action.invokeOnTimeout] else [], LoopControl.next)
  | .stopSignal =>
      (s, if lt.hasOnClose then [Action.invokeOnClose] else [], LoopControl.halt)

/-! ## Generation 1 — Monitor.genCallbacks (monitor.go lines 130-157)

The two callbacks close over a mutable `timedOut` flag.  Each callback is
modelled as a function from the current flag value to the new flag value
together with the commands it launches. -/

/-- The `onPattern` closure produced by `Monitor.genCallbacks`
(monitor.go lines 135-142): if a match command is configured, launch it
in the background; then set `timedOut = false`. -/
def genOnPattern (cfg : LogConfig) (_timedOut : Bool) : Bool × List Action :=
  (false,
   if cfg.Command.Program ≠ "" then [Action.startCommand cfg.Command] else [])

/-- The `onTimeout` closure produced by `Monitor.genCallbacks`
(monitor.go lines 144-154): if a timeout command is configured, launch it
unless `timedOut && cfg.TimeoutOnce`; then unconditionally set
`timedOut = true`. -/
def genOnTimeout (cfg : LogConfig) (timedOut : Bool) : Bool × List Action :=
  (true,
   if cfg.TimeoutCommand.Program ≠ "" then
     (if !(timedOut && cfg.TimeoutOnce) then [Action.startCommand cfg.TimeoutCommand]
      else [])
   else [])

/-! ## Generation 2 — Collector.process (log_tracker.go, second unit) -/

/-- The runtime state of `Collector.process`: the ticker plus the loop's
local `timedOutOnce` flag (initialized to `false`, second-unit line 262). -/
structure CollectorState where
  ticker : TickerState
  timedOutOnce : Bool
deriving DecidableEq, Repr

/-- A `Collector` as far as its `process` loop is concerned: its
configuration and the compiled pattern. -/
structure Collector where
  config : CollectorConfig
  Pattern : String → Bool

/-- Ticker initialization in `NewCollector` (second-unit lines 183-192):
a fresh ticker at `config.Timeout.Interval` when the interval is
positive, otherwise a channel that never fires. -/
def Collector.tickerInit (c : Collector) : TickerState :=
  if c.config.Timeout.Interval > 0 then ⟨true, c.config.Timeout.Interval, 1⟩
  else ⟨false, 0, 0⟩

/-- Initial state of the `process` loop. -/
def Collector.stateInit (c : Collector) : CollectorState :=
  ⟨c.tickerInit, false⟩

/-- `Collector.resetTimeout` (second-unit lines 318-328): if a ticker
exists, stop it and create a fresh one at `config.Timeout.Interval`. -/
def Collector.resetTimeout (c : Collector) (s : TickerState) : TickerState :=
  if s.armed then ⟨true, c.config.Timeout.Interval, s.generation + 1⟩ else s

/-- The three events the `select` in `Collector.process` can wake up on:
a line on `collector.lines`, the timeout channel, or `Done`. -/
inductive CollectorEvent where
  | msg (text : String)
  | timerFire
  | done
deriving DecidableEq, Repr

/-- One iteration of the `for { select { ... } }` loop in
`Collector.process` (second-unit lines 265-304). -/
def Collector.processStep (c : Collector) (s : CollectorState) (ev : CollectorEvent) :
    CollectorState × List Action × LoopControl :=
  match ev with
  | .msg text =>
      if c.Pattern text then
        ({ ticker := c.resetTimeout s.ticker, timedOutOnce := false },
         if c.config.Command.Program ≠ "" then [Action.startCommand c.config.Command]
         else [],
         LoopControl.next)
      else
        (s, [], LoopControl.next)
  | .timerFire =>
      ({ s with timedOutOnce := true },
       if c.config.Timeout.Command.Program ≠ "" then
         (if !(s.timedOutOnce && c.config.Timeout.Once) then
            [Action.startCommand c.config.Timeout.Command]
          else [])
       else [],
       LoopControl.next)
  | .done =>
      (s, [], LoopControl.halt)

/-! ## Claims C1 and C2 -/

/-- Claim C1: in both generations, with a non-empty timeout-command
program, a timer firing launches the timeout command unless the
once-option is set AND the already-timed-out flag is set; after the
firing the flag is set to `true` unconditionally (even when the option is
off); every pattern-matching line clears the flag to `false`; hence the
first timer firing after a match always launches the command again. -/
theorem timeout_once_flag_behaviour
    (cfg : LogConfig) (b : Bool) (c : Collector) (s : CollectorState) (m : String)
    (hT1 : cfg.TimeoutCommand.Program ≠ "")
    (hT2 : c.config.Timeout.Command.Program ≠ "")
    (hm : c.Pattern m = true) :
    (genOnTimeout cfg b).2
        = (if b && cfg.TimeoutOnce then []
           else [Action.startCommand cfg.TimeoutCommand])
    ∧ (genOnTimeout cfg b).1 = true
    ∧ (genOnPattern cfg b).1 = false
    ∧ (genOnTimeout cfg (genOnPattern cfg b).1).2
        = [Action.startCommand cfg.TimeoutCommand]
    ∧ (c.processStep s .timerFire).2.1
        = (if s.timedOutOnce && c.config.Timeout.Once then []
           else [Action.startCommand c.config.Timeout.Command])
    ∧ (c.processStep s .timerFire).1.timedOutOnce = true
    ∧ (c.processStep s (.msg m)).1.timedOutOnce = false
    ∧ (c.processStep ((c.processStep s (.msg m)).1) .timerFire).2.1
        = [Action.startCommand c.config.Timeout.Command] := by
  refine ⟨?_, rfl, rfl, ?_, ?_, rfl, ?_, ?_⟩
  · cases hb : b && cfg.TimeoutOnce <;> simp [genOnTimeout, hT1, hb]
  · simp [genOnTimeout, genOnPattern, hT1]
  · cases hb : s.timedOutOnce && c.config.Timeout.Once <;>
      simp [Collector.processStep, hT2, hb]
  · simp [Collector.processStep, hm]
  · simp [Collector.processStep, hm, hT2]

/-- Witness for C1 at a concrete configuration, flag state and line. -/
theorem timeout_once_flag_behaviour_witness :
    (genOnTimeout
        ⟨"f", "p", ⟨"", []⟩, 5, true, ⟨"cmd", []⟩, false, false, false, 0⟩ true).2 = []
    ∧ (genOnTimeout
        ⟨"f", "p", ⟨"", []⟩, 5, true, ⟨"cmd", []⟩, false, false, false, 0⟩ true).1 = true := by
  have h := timeout_once_flag_behaviour
    ⟨"f", "p", ⟨"", []⟩, 5, true, ⟨"cmd", []⟩, false, false, false, 0⟩ true
    ⟨⟨"ty", [], "p", ⟨"", []⟩, ⟨⟨"tc", []⟩, 0, false⟩⟩, fun t => t == "yes"⟩
    ⟨⟨false, 0, 0⟩, false⟩ "yes"
    (by decide) (by decide) (by decide)
  exact ⟨by simpa using h.1, h.2.1⟩

/-- Claim C2: in the Generation 1 run loop, a line that matches the
pattern resets the timer (the armed ticker is replaced by a fresh one at
the same period, bumping the generation) and invokes the on-pattern hook
with the line; a non-matching line changes nothing and invokes nothing. -/
theorem track_line_match_behaviour
    (lt : LogTracker) (s : TickerState) (text other : String)
    (hmatch : lt.Pattern text = true)
    (hhook : lt.hasOnPattern = true)
    (hother : lt.Pattern other = false) :
    lt.trackStep s (.line text)
        = (lt.ResetTimeout s, [Action.invokeOnPattern text], LoopControl.next)
    ∧ (s.armed = true →
        lt.ResetTimeout s = ⟨true, lt.Timeout, s.generation + 1⟩)
    ∧ (s.armed = false → lt.ResetTimeout s = s)
    ∧ lt.trackStep s (.line other) = (s, [], LoopControl.next) := by
  refine ⟨?_, ?_, ?_, ?_⟩
  · simp [LogTracker.trackStep, hmatch, hhook]
  · intro h; simp [LogTracker.ResetTimeout, h]
  · intro h; simp [LogTracker.ResetTimeout, h]
  · simp [LogTracker.trackStep, hother]

/-- Witness for C2 at a concrete tracker, ticker state and lines. -/
theorem track_line_match_behaviour_witness :
    LogTracker.trackStep
        ⟨"f", fun t => t == "hit", 7, false, true, true, false⟩
        ⟨true, 7, 1⟩ (.line "hit")
      = (⟨true, 7, 2⟩, [Action.invokeOnPattern "hit"], LoopControl.next)
    ∧ LogTracker.trackStep
        ⟨"f", fun t => t == "hit", 7, false, true, true, false⟩
        ⟨true, 7, 1⟩ (.line "miss")
      = (⟨true, 7, 1⟩, [], LoopControl.next) := by
  have h := track_line_match_behaviour
    ⟨"f", fun t => t == "hit", 7, false, true, true, false⟩
    ⟨true, 7, 1⟩ "hit" "miss" rfl rfl rfl
  refine ⟨?_, h.2.2.2⟩
  have h2 := h.2.1 rfl
  rw [h.1, h2]

/-! ## Generation 2 — CollectorOutleter.OnEvent (second unit, lines 343-370) -/

/-- A value stored in a beat event's field map, as far as `OnEvent` is
concerned: either a Go `string` or a value of any other dynamic type
(the `msg.(string)` type assertion fails on the latter). -/
inductive FieldValue where
  | str (s : String)
  | nonString
deriving DecidableEq, Repr

/-- A harvested beat event as `OnEvent` sees it: `Fields` is the event's
field map, `none` modelling a `nil` map.  The map is an association list
keyed by field name (Go map lookup is `List.lookup`). -/
structure BeatEvent where
  Fields : Option (List (String × FieldValue))
deriving DecidableEq, Repr

/-- The observable outcome of one `CollectorOutleter.OnEvent` call:
the returned acknowledgment, the line forwarded on `outlet.lines` (if
any), and whether the non-string warning was logged. -/
structure OnEventResult where
  accepted : Bool
  forwarded : Option String
  warned : Bool
deriving DecidableEq, Repr

/-- `CollectorOutleter.OnEvent` (second unit, lines 343-370): forward
`event.Fields["message"]` when the map is non-nil, the key is present and
the value is a string; warn when the value is present but not a string;
always return `true`. -/
def OnEvent (ev : BeatEvent) : OnEventResult :=
  match ev.Fields with
  | none => ⟨true, none, false⟩
  | some fields =>
      match fields.lookup "message" with
      | none => ⟨true, none, false⟩
      | some (.str s) => ⟨true, some s, false⟩
      | some .nonString => ⟨true, none, true⟩

/-- Claim C3: `OnEvent` forwards the message string iff the field map is
non-nil, contains `"message"` and the value is a string; it warns exactly
in the present-but-not-a-string case; and it accepts every event. -/
theorem onEvent_forwarding (ev : BeatEvent) (s : String) :
    ((OnEvent ev).forwarded = some s ↔
      ∃ fields, ev.Fields = some fields
        ∧ fields.lookup "message" = some (FieldValue.str s))
    ∧ ((OnEvent ev).warned = true ↔
      ∃ fields, ev.Fields = some fields
        ∧ fields.lookup "message" = some FieldValue.nonString)
    ∧ (OnEvent ev).accepted = true := by
  obtain ⟨fields⟩ := ev
  cases fields with
  | none => simp [OnEvent]
  | some m =>
    cases hl : m.lookup "message" with
    | none => simp [OnEvent, hl]
    | some v => cases v <;> simp [OnEvent, hl]

/-! ## Claim C4 — fire-and-forget command launching

`CommandConfig.Start` (Generation 2 configuration module, lines 227-234)
calls `cmd.Start()`, which hands the process to the OS without waiting
for completion, and returns `(cmd, err)`.  The launch outcome is supplied
by an oracle `launchOk`; the error (if any) is returned to the caller.
Both call sites inside the run loops — `Collector.process` and the
Generation 1 callbacks — discard the returned values, so no launch
failure can alter the loop state.  The oracle-threaded step functions
below repeat the loop code, additionally recording each launch's
discarded error next to the launch action. -/

/-- `CommandConfig.Start` with an explicit launch-outcome oracle: returns
the `exec.Cmd` and the launch error (`none` on success). -/
def CommandConfig.Start (launchOk : CommandConfig → Bool) (cmd : CommandConfig) :
    CommandConfig × Option String :=
  (cmd, if launchOk cmd then none else some "launch failure")

/-- The `onPattern` closure with the launch outcome made explicit: the
error returned by `Start` is paired with the action and discarded. -/
def genOnPatternL (launchOk : CommandConfig → Bool) (cfg : LogConfig)
    (_timedOut : Bool) : Bool × List (Action × Option String) :=
  (false,
   if cfg.Command.Program ≠ "" then
     [(Action.startCommand cfg.Command, (CommandConfig.Start launchOk cfg.Command).2)]
   else [])

/-- The `onTimeout` closure with the launch outcome made explicit. -/
def genOnTimeoutL (launchOk : CommandConfig → Bool) (cfg : LogConfig)
    (timedOut : Bool) : Bool × List (Action × Option String) :=
  (true,
   if cfg.TimeoutCommand.Program ≠ "" then
     (if !(timedOut && cfg.TimeoutOnce) then
        [(Action.startCommand cfg.TimeoutCommand,
          (CommandConfig.Start launchOk cfg.TimeoutCommand).2)]
      else [])
   else [])

/-- One iteration of `Collector.process` with the launch outcomes made
explicit. -/
def Collector.processStepL (launchOk : CommandConfig → Bool) (c : Collector)
    (s : CollectorState) (ev : CollectorEvent) :
    CollectorState × List (Action × Option String) × LoopControl :=
  match ev with
  | .msg text =>
      if c.Pattern text then
        ({ ticker := c.resetTimeout s.ticker, timedOutOnce := false },
         if c.config.Command.Program ≠ "" then
           [(Action.startCommand c.config.Command,
             (CommandConfig.Start launchOk c.config.Command).2)]
         else [],
         LoopControl.next)
      else
        (s, [], LoopControl.next)
  | .timerFire =>
      ({ s with timedOutOnce := true },
       if c.config.Timeout.Command.Program ≠ "" then
         (if !(s.timedOutOnce && c.config.Timeout.Once) then
            [(Action.startCommand c.config.Timeout.Command,
              (CommandConfig.Start launchOk c.config.Timeout.Command).2)]
          else [])
       else [],
       LoopControl.next)
  | .done =>
      (s, [], LoopControl.halt)

/-- Claim C4: `Start` returns the command descriptor regardless of the
launch outcome (it never waits on the process), and in both generations
the run-loop state, the set of launch attempts and the loop-control
decision are identical whatever the launch outcomes are — a launch
failure is returned (to be logged) but never escalates into the loop
state or its continuation. -/
theorem launch_failure_never_escalates
    (o o' : CommandConfig → Bool) (cmd : CommandConfig) (cfg : LogConfig)
    (b : Bool) (c : Collector) (s : CollectorState) (ev : CollectorEvent) :
    (CommandConfig.Start o cmd).1 = cmd
    ∧ (genOnPatternL o cfg b).1 = (genOnPattern cfg b).1
    ∧ (genOnPatternL o cfg b).2.map Prod.fst = (genOnPattern cfg b).2
    ∧ (genOnTimeoutL o cfg b).1 = (genOnTimeout cfg b).1
    ∧ (genOnTimeoutL o cfg b).2.map Prod.fst = (genOnTimeout cfg b).2
    ∧ (c.processStepL o s ev).1 = (c.processStep s ev).1
    ∧ (c.processStepL o s ev).2.1.map Prod.fst = (c.processStep s ev).2.1
    ∧ (c.processStepL o s ev).2.2 = (c.processStep s ev).2.2
    ∧ (c.processStepL o s ev).1 = (c.processStepL o' s ev).1
    ∧ (genOnPatternL o cfg b).1 = (genOnPatternL o' cfg b).1
    ∧ (genOnTimeoutL o cfg b).1 = (genOnTimeoutL o' cfg b).1 := by
  refine ⟨rfl, rfl, ?_, rfl, ?_, ?_, ?_, ?_, ?_, rfl, rfl⟩
  · by_cases h : cfg.Command.Program = "" <;>
      simp [genOnPatternL, genOnPattern, h]
  · by_cases h : cfg.TimeoutCommand.Program = "" <;>
      cases hb : b && cfg.TimeoutOnce <;>
      simp [genOnTimeoutL, genOnTimeout, h, hb]
  all_goals
    cases ev with
    | msg text =>
        by_cases hm : c.Pattern text = true <;>
        by_cases h : c.config.Command.Program = "" <;>
        simp [Collector.processStepL, Collector.processStep, hm, h]
    | timerFire =>
        by_cases h : c.config.Timeout.Command.Program = "" <;>
        cases hb : s.timedOutOnce && c.config.Timeout.Once <;>
        simp [Collector.processStepL, Collector.processStep, h, hb]
    | done => rfl

/-! ## Generation 2 — CreateCollection (second unit, lines 391-412)

`NewCollector` compiles the pattern and constructs a FileBeat prospector,
either of which can fail; for the aggregation logic of
`CreateCollection` it is an arbitrary fallible constructor, supplied as a
function argument (`none` models a `(nil, err)` return).  The raw
per-entry `*common.Config` values are likewise opaque here. -/

/-- The two error values `CreateCollection` can return. -/
inductive CreateCollectionError where
  /-- "LogPulseConfig and rawConfigs must contain the same number of elements" -/
  | countMismatch
  /-- "No Collectors created" -/
  | noCollectors
deriving DecidableEq, Repr

/-- `CreateCollection` (second unit, lines 391-412): reject unequal
lengths; otherwise construct a collector per index, skipping failures;
reject an empty result; otherwise return the successes in order.  The
`for i, conf := range configs { ... rawConfigs[i] ... }` loop is the
`zip`/`filterMap` below (the lengths are equal past the first check). -/
def CreateCollection {Raw Col : Type}
    (newCollector : CollectorConfig → Raw → Option Col)
    (configs : List CollectorConfig) (rawConfigs : List Raw) :
    Except CreateCollectionError (List Col) :=
  if configs.length ≠ rawConfigs.length then
    .error .countMismatch
  else
    let collectors := (configs.zip rawConfigs).filterMap
      fun p => newCollector p.1 p.2
    if collectors.length = 0 then .error .noCollectors
    else .ok collectors

/-- Claim C5: `CreateCollection` returns the count-mismatch error when
the input lists have different lengths; with equal lengths it returns the
no-collectors error when every per-index construction failed, and
otherwise the list of exactly the successfully constructed collectors. -/
theorem createCollection_aggregation {Raw Col : Type}
    (newCollector : CollectorConfig → Raw → Option Col)
    (configs : List CollectorConfig) (rawConfigs : List Raw) :
    (configs.length ≠ rawConfigs.length →
      CreateCollection newCollector configs rawConfigs
        = .error .countMismatch)
    ∧ (configs.length = rawConfigs.length →
      ((configs.zip rawConfigs).filterMap (fun p => newCollector p.1 p.2) = [] →
        CreateCollection newCollector configs rawConfigs
          = .error .noCollectors)
      ∧ ((configs.zip rawConfigs).filterMap (fun p => newCollector p.1 p.2) ≠ [] →
        CreateCollection newCollector configs rawConfigs
          = .ok ((configs.zip rawConfigs).filterMap
              (fun p => newCollector p.1 p.2)))) := by
  refine ⟨fun h => ?_, fun h => ⟨fun hz => ?_, fun hz => ?_⟩⟩
  · simp [CreateCollection, h]
  · simp [CreateCollection, h, hz]
  · simp [CreateCollection, h, List.length_eq_zero, hz]

/-- Witness for C5: concrete runs hitting all three outcomes, with a
constructor that fails exactly on an empty pattern. -/
theorem createCollection_aggregation_witness :
    CreateCollection
        (fun (c : CollectorConfig) (_ : Nat) =>
          if c.Pattern ≠ "" then some c.Pattern else none)
        [⟨"log", [], "p", ⟨"", []⟩, ⟨⟨"", []⟩, 0, false⟩⟩] []
      = .error .countMismatch
    ∧ CreateCollection
        (fun (c : CollectorConfig) (_ : Nat) =>
          if c.Pattern ≠ "" then some c.Pattern else none)
        [⟨"log", [], "", ⟨"", []⟩, ⟨⟨"", []⟩, 0, false⟩⟩] [0]
      = .error .noCollectors
    ∧ CreateCollection
        (fun (c : CollectorConfig) (_ : Nat) =>
          if c.Pattern ≠ "" then some c.Pattern else none)
        [⟨"log", [], "", ⟨"", []⟩, ⟨⟨"", []⟩, 0, false⟩⟩,
         ⟨"log", [], "^Match", ⟨"", []⟩, ⟨⟨"", []⟩, 0, false⟩⟩] [0, 1]
      = .ok ["^Match"] := by
  refine ⟨?_, ?_, ?_⟩
  · exact (createCollection_aggregation _ _ _).1 (by decide)
  · exact ((createCollection_aggregation _ _ _).2 (by decide)).1 (by decide)
  · exact ((createCollection_aggregation _ _ _).2 (by decide)).2 (by decide)

/-! ## Generation 1 — Monitor.Start / Monitor.Stop (monitor.go)

`Monitor.Start` (lines 41-78) builds a tracker per config entry, spawning
a goroutine for each success.  When no tracker was built it returns
`NoTrackedFilesError{}` at once.  Otherwise it blocks in
`select { case <-monitor.stopSignal: ... }`, and once the stop signal is
closed it runs `Cleanup` on every tracker and closes `monitor.stopped`.
`Monitor.Stop` (lines 162-174) closes `stopSignal` and then blocks on
`<-monitor.stopped`.

The temporal behaviour is modelled by outcome records: `blocked` records
whether `Start` reached the `select` before returning, and
`stoppedClosed` whether `close(monitor.stopped)` is executed on the path
taken (assuming, on the blocking path, that the stop signal eventually
fires).  `close(monitor.stopped)` occurs nowhere else in the program, so
`Stop`'s `<-monitor.stopped` returns exactly when that flag is true. -/

/-- The error `Monitor.Start` can return (monitor.go lines 11-16). -/
inductive MonitorError where
  /-- `NoTrackedFilesError`: "No files were setup to be tracked" -/
  | noTrackedFiles
deriving DecidableEq, Repr

/-- Observable outcome of one `Monitor.Start` call. -/
structure StartOutcome where
  /-- `nil` or the returned error -/
  result : Option MonitorError
  /-- the trackers that were successfully built and launched -/
  trackers : List LogTracker
  /-- whether `Start` blocked on the stop signal before returning -/
  blocked : Bool
  /-- whether every retained tracker's `Cleanup` ran -/
  cleanedUp : Bool
  /-- whether `close(monitor.stopped)` executed -/
  stoppedClosed : Bool

/-- `Monitor.Start` (monitor.go lines 41-78), with tracker construction
(`createTracker`, which returns `nil` on failure) supplied as a
function. -/
def MonitorStart (create : LogConfig → Option LogTracker)
    (config : List LogConfig) : StartOutcome :=
  let trackers := config.filterMap create
  if trackers.length = 0 then
    { result := some .noTrackedFiles, trackers := trackers,
      blocked := false, cleanedUp := false, stoppedClosed := false }
  else
    { result := none, trackers := trackers,
      blocked := true, cleanedUp := true, stoppedClosed := true }

/-- Observable outcome of one `Monitor.Stop` call, given the outcome of
the `Start` call on the same monitor. -/
structure StopOutcome where
  /-- `close(monitor.stopSignal)` always executes first -/
  stopSignalClosed : Bool
  /-- whether `<-monitor.stopped` unblocks, i.e. whether `Stop` ever
  returns: true exactly when `close(monitor.stopped)` executes, which
  only `Start`'s blocking branch does -/
  returns : Bool

/-- `Monitor.Stop` (monitor.go lines 162-174). -/
def MonitorStop (startOutcome : StartOutcome) : StopOutcome :=
  { stopSignalClosed := true, returns := startOutcome.stoppedClosed }

/-- Claim C6: whenever zero trackers are successfully constructed — in
particular on the empty configuration — `Monitor.Start` returns the
no-tracked-files error without blocking on the shutdown signal. -/
theorem monitorStart_no_trackers
    (create : LogConfig → Option LogTracker) (config : List LogConfig)
    (h : (config.filterMap create).length = 0) :
    (MonitorStart create config).result = some .noTrackedFiles
    ∧ (MonitorStart create config).blocked = false
    ∧ (MonitorStart create [] |>.result) = some .noTrackedFiles
    ∧ (MonitorStart create [] |>.blocked) = false := by
  refine ⟨?_, ?_, ?_, ?_⟩ <;> simp [MonitorStart, h]

/-- Witness for C6 at a concrete configuration whose only entry fails
tracker construction. -/
theorem monitorStart_no_trackers_witness :
    (MonitorStart (fun _ => none)
        [⟨"/var/log/x.log", "(", ⟨"", []⟩, 0, false, ⟨"", []⟩,
          true, false, false, 0⟩]).result = some .noTrackedFiles
    ∧ (MonitorStart (fun _ => none)
        [⟨"/var/log/x.log", "(", ⟨"", []⟩, 0, false, ⟨"", []⟩,
          true, false, false, 0⟩]).blocked = false := by
  have h := monitorStart_no_trackers (fun _ => none)
    [⟨"/var/log/x.log", "(", ⟨"", []⟩, 0, false, ⟨"", []⟩, true, false, false, 0⟩]
    rfl
  exact ⟨h.1, h.2.1⟩

/-- Claim C10: on the no-tracked-files error path `Start` returns without
closing the `stopped` channel; `stopped` is closed exactly on the
blocking path; hence a subsequent `Stop`, which waits on `stopped`,
never returns. -/
theorem monitorStop_after_error_never_returns
    (create : LogConfig → Option LogTracker) (config : List LogConfig)
    (h : (MonitorStart create config).result = some .noTrackedFiles) :
    (MonitorStart create config).stoppedClosed = false
    ∧ (MonitorStop (MonitorStart create config)).returns = false
    ∧ (MonitorStop (MonitorStart create config)).stopSignalClosed = true
    ∧ ((MonitorStart create config).stoppedClosed
        = (MonitorStart create config).blocked) := by
  have hz : (config.filterMap create).length = 0 := by
    by_contra hz
    simp [MonitorStart, hz] at h
  refine ⟨?_, ?_, rfl, ?_⟩ <;> simp [MonitorStart, MonitorStop, hz]

/-- Witness for C10 on the empty configuration. -/
theorem monitorStop_after_error_never_returns_witness :
    (MonitorStart (fun _ => none) []).stoppedClosed = false
    ∧ (MonitorStop (MonitorStart (fun _ => none) [])).returns = false := by
  have h := monitorStop_after_error_never_returns (fun _ => none) [] rfl
  exact ⟨h.1, h.2.1⟩

/-! ## Generation 2 — prospector scanning defaults
(configuration module, lines 336-359 and 369-388) -/

/-- `harvester.LogType`, the `"log"` input-type constant of the vendored
harvester engine (used by `DefaultProspectorConfig`). -/
def harvesterLogType : String := "log"

/-- `prospectorConfig` (configuration module, lines 352-359): the subset
of the harvester engine's scanning parameters whose defaults log-pulse
overrides.  Durations are nanoseconds. -/
structure prospectorConfig where
  type : String
  TailFiles : Bool
  Backoff : Int
  BackoffFactor : Int
  MaxBackoff : Int
  ScanFrequency : Int
deriving DecidableEq, Repr

/-- `DefaultProspectorConfig` (configuration module, lines 340-347). -/
def DefaultProspectorConfig : prospectorConfig :=
  { type := harvesterLogType
  , TailFiles := true
  , Backoff := 200 * millisecond
  , BackoffFactor := 1
  , MaxBackoff := 1 * second
  , ScanFrequency := 3 * second }

/-- The scanning-relevant fields a raw configuration entry may carry
(`none` = the user did not set the field).  This is the projection of one
`*common.Config` onto the fields `prospectorConfig` unpacks. -/
structure RawScanFields where
  type : Option String
  tail_files : Option Bool
  backoff : Option Int
  backoff_factor : Option Int
  max_backoff : Option Int
  scan_frequency : Option Int
deriving DecidableEq, Repr

/-- A raw entry with no scanning fields set. -/
def RawScanFields.empty : RawScanFields :=
  ⟨none, none, none, none, none, none⟩

/-- The `rawConfig.Unpack(&conf)` step of `setProspectorDefaults`
(configuration module, lines 372-378): starting from a copy of
`DefaultProspectorConfig`, every field the user set overwrites the
default, every unset field keeps it. -/
def unpackOntoDefaults (raw : RawScanFields) : prospectorConfig :=
  { type := raw.type.getD DefaultProspectorConfig.type
  , TailFiles := raw.tail_files.getD DefaultProspectorConfig.TailFiles
  , Backoff := raw.backoff.getD DefaultProspectorConfig.Backoff
  , BackoffFactor := raw.backoff_factor.getD DefaultProspectorConfig.BackoffFactor
  , MaxBackoff := raw.max_backoff.getD DefaultProspectorConfig.MaxBackoff
  , ScanFrequency := raw.scan_frequency.getD DefaultProspectorConfig.ScanFrequency }

/-- The `rawConfig.Merge(conf)` step (configuration module, lines
380-384): the combined record is written back into the raw entry, so the
harvester engine sees every scanning field as user-specified. -/
def mergeIntoRaw (conf : prospectorConfig) : RawScanFields :=
  ⟨some conf.type, some conf.TailFiles, some conf.Backoff,
   some conf.BackoffFactor, some conf.MaxBackoff, some conf.ScanFrequency⟩

/-- `setProspectorDefaults` (configuration module, lines 369-388),
restricted to the scanning fields it touches: per entry, unpack the
user's fields onto a copy of the defaults and merge the result back. -/
def setProspectorDefaults (raws : List RawScanFields) : List RawScanFields :=
  raws.map fun raw => mergeIntoRaw (unpackOntoDefaults raw)

/-- Claim C7: the fixed defaults record is
`{type:"log", tailFromEnd:true, backoff:200ms, backoffFactor:1,
maxBackoff:1s, scanFrequency:3s}`; the overlay applied to an entry with
no scanning fields merges exactly these values into the entry; a
user-specified scanning field overrides the corresponding default. -/
theorem scan_defaults_overlay (raw : RawScanFields) (b : Int)
    (hset : raw.backoff = some b) :
    DefaultProspectorConfig
      = ⟨"log", true, 200000000, 1, 1000000000, 3000000000⟩
    ∧ setProspectorDefaults [RawScanFields.empty]
      = [⟨some "log", some true, some 200000000, some 1,
          some 1000000000, some 3000000000⟩]
    ∧ unpackOntoDefaults RawScanFields.empty = DefaultProspectorConfig
    ∧ (unpackOntoDefaults raw).Backoff = b
    ∧ (∀ ty, raw.type = some ty → (unpackOntoDefaults raw).type = ty)
    ∧ (∀ v, raw.scan_frequency = some v →
        (unpackOntoDefaults raw).ScanFrequency = v)
    ∧ (raw.scan_frequency = none →
        (unpackOntoDefaults raw).ScanFrequency = 3 * second) := by
  refine ⟨by decide, by decide, by decide, ?_, ?_, ?_, ?_⟩
  · simp [unpackOntoDefaults, hset]
  · intro ty h; simp [unpackOntoDefaults, h]
  · intro v h; simp [unpackOntoDefaults, h]
  · intro h
    simp [unpackOntoDefaults, h, DefaultProspectorConfig, second]

/-- Witness for C7 at a concrete raw entry that sets only `backoff`. -/
theorem scan_defaults_overlay_witness :
    (unpackOntoDefaults ⟨none, none, some 10000000, none, none, none⟩).Backoff
      = 10000000
    ∧ setProspectorDefaults [RawScanFields.empty]
      = [⟨some "log", some true, some 200000000, some 1,
          some 1000000000, some 3000000000⟩] := by
  have h := scan_defaults_overlay
    ⟨none, none, some 10000000, none, none, none⟩ 10000000 rfl
  exact ⟨h.2.2.2.1, h.2.1⟩

/-! ## Generation 1 — Monitor.createTracker (monitor.go, lines 82-125)

`createTracker` first opens the tail (`tail.TailFile`) with a fixed
`tail.Config`, then compiles the pattern.  Both external calls are
supplied as oracles: `tailOpenOk` says whether `tail.TailFile` succeeds
for a given file and tail configuration, and `compile` gives the
`MatchString` function of a pattern that compiles (or `none`).  The
effects list records resource acquisition and release. -/

/-- The `tail.Config` structure as `createTracker` fills it
(monitor.go lines 84-98).  `LocationWhence = 2` is seek-from-end. -/
structure TailConfig where
  ReOpen : Bool
  Follow : Bool
  LocationOffset : Int
  LocationWhence : Int
  MustExist : Bool
  Poll : Bool
  Pipe : Bool
  MaxLineSize : Int
deriving DecidableEq, Repr

/-- The tail configuration `createTracker` passes to `tail.TailFile` for
a given entry: reopen on rotation, follow new writes, start at the end of
the file, and the entry's must-exist / poll / pipe / max-line-size
settings. -/
def tailConfigFor (lc : LogConfig) : TailConfig :=
  { ReOpen := true
  , Follow := true
  , LocationOffset := 0
  , LocationWhence := 2
  , MustExist := lc.MustExist
  , Poll := lc.Poll
  , Pipe := lc.Pipe
  , MaxLineSize := lc.MaxLineSize }

/-- An open tail handle: the file it follows and the configuration it
was opened with (its background goroutine is running once it exists). -/
structure Tail where
  file : String
  config : TailConfig
deriving DecidableEq, Repr

/-- Resource effects of `createTracker` and `LogTracker.Cleanup`. -/
inductive TrackerEffect where
  /-- `tail.TailFile` succeeded: background tailing resources acquired -/
  | tailOpened (t : Tail)
  /-- `lt.ticker.Stop()` ran -/
  | tickerStopped
  /-- `lt.Tail.Cleanup()` ran: the tail's background resources released -/
  | tailCleanedUp
deriving DecidableEq, Repr

/-- A constructed Generation 1 tracker together with its open tail, as
`createTracker` assembles it (monitor.go lines 114-124): the Monitor
wires `OnPattern` and `OnTimeout` (never `nil`) and leaves `OnClose`
unset, and converts the config's integer seconds to a duration. -/
structure BuiltTracker where
  tracker : LogTracker
  tail : Tail

/-- `Monitor.createTracker` (monitor.go lines 82-125): open the tail
first; on failure return `nil` with no resources acquired.  Then compile
the pattern; on failure return `nil` — the already-opened tail is left
acquired and no cleanup runs on this path.  On success return the
tracker bound to the open tail. -/
def createTracker (tailOpenOk : String → TailConfig → Bool)
    (compile : String → Option (String → Bool)) (lc : LogConfig) :
    Option BuiltTracker × List TrackerEffect :=
  if tailOpenOk lc.File (tailConfigFor lc) then
    let t : Tail := ⟨lc.File, tailConfigFor lc⟩
    match compile lc.Pattern with
    | none => (none, [TrackerEffect.tailOpened t])
    | some pat =>
        (some ⟨{ FileName := lc.File
               , Pattern := pat
               , Timeout := lc.Timeout * second
               , TimeoutOnce := lc.TimeoutOnce
               , hasOnPattern := true
               , hasOnTimeout := true
               , hasOnClose := false }, t⟩,
         [TrackerEffect.tailOpened t])
  else
    (none, [])

/-- `LogTracker.Cleanup` (log_tracker.go lines 99-106): stop the ticker
when one is armed, then release the tail's background resources. -/
def LogTracker.Cleanup (s : TickerState) : List TrackerEffect :=
  (if s.armed then [TrackerEffect.tickerStopped] else [])
    ++ [TrackerEffect.tailCleanedUp]

/-- Claim C8: `createTracker` yields no tracker exactly when the tail
cannot be opened or the pattern does not compile; on success the tail was
opened with reopen-on-rotation, follow, start-at-end and the entry's
must-exist / poll / pipe / max-line-size settings. -/
theorem createTracker_contract
    (tailOpenOk : String → TailConfig → Bool)
    (compile : String → Option (String → Bool)) (lc : LogConfig) :
    ((createTracker tailOpenOk compile lc).1 = none ↔
      (tailOpenOk lc.File (tailConfigFor lc) = false
        ∨ compile lc.Pattern = none))
    ∧ (∀ bt, (createTracker tailOpenOk compile lc).1 = some bt →
        bt.tail = ⟨lc.File, tailConfigFor lc⟩
        ∧ (tailConfigFor lc).ReOpen = true
        ∧ (tailConfigFor lc).Follow = true
        ∧ (tailConfigFor lc).LocationOffset = 0
        ∧ (tailConfigFor lc).LocationWhence = 2
        ∧ (tailConfigFor lc).MustExist = lc.MustExist
        ∧ (tailConfigFor lc).Poll = lc.Poll
        ∧ (tailConfigFor lc).Pipe = lc.Pipe
        ∧ (tailConfigFor lc).MaxLineSize = lc.MaxLineSize) := by
  constructor
  · by_cases ho : tailOpenOk lc.File (tailConfigFor lc) = true
    · cases hc : compile lc.Pattern <;> simp [createTracker, ho, hc]
    · simp [createTracker, ho]
  · intro bt hbt
    by_cases ho : tailOpenOk lc.File (tailConfigFor lc) = true
    · cases hc : compile lc.Pattern with
      | none => simp [createTracker, ho, hc] at hbt
      | some pat =>
          simp [createTracker, ho, hc] at hbt
          subst hbt
          exact ⟨rfl, rfl, rfl, rfl, rfl, rfl, rfl, rfl, rfl⟩
    · simp [createTracker, ho] at hbt

/-- Witness for C8: a concrete entry whose tail opens and whose pattern
compiles, and one whose pattern fails to compile. -/
theorem createTracker_contract_witness :
    ((createTracker (fun _ _ => true) (fun _ => none)
        ⟨"/tmp/a.log", "(", ⟨"", []⟩, 0, false, ⟨"", []⟩,
          true, true, false, 50⟩).1 = none)
    ∧ (tailConfigFor
        ⟨"/tmp/a.log", "(", ⟨"", []⟩, 0, false, ⟨"", []⟩,
          true, true, false, 50⟩).MustExist = true := by
  have h := createTracker_contract (fun _ _ => true) (fun _ => none)
    ⟨"/tmp/a.log", "(", ⟨"", []⟩, 0, false, ⟨"", []⟩, true, true, false, 50⟩
  exact ⟨h.1.mpr (Or.inr rfl), rfl⟩

/-- Claim C9: when the tail opens but the pattern fails to compile,
`createTracker` returns no tracker while the opened tail's background
resources stay acquired: the effects on that path are exactly the tail
acquisition, and the release effect — the one `LogTracker.Cleanup`
always emits — never occurs. -/
theorem createTracker_leaks_tail_on_bad_pattern
    (tailOpenOk : String → TailConfig → Bool)
    (compile : String → Option (String → Bool)) (lc : LogConfig)
    (s : TickerState)
    (ho : tailOpenOk lc.File (tailConfigFor lc) = true)
    (hc : compile lc.Pattern = none) :
    createTracker tailOpenOk compile lc
      = (none, [TrackerEffect.tailOpened ⟨lc.File, tailConfigFor lc⟩])
    ∧ TrackerEffect.tailCleanedUp ∉ (createTracker tailOpenOk compile lc).2
    ∧ TrackerEffect.tailCleanedUp ∈ LogTracker.Cleanup s := by
  refine ⟨?_, ?_, ?_⟩
  · simp [createTracker, ho, hc]
  · simp [createTracker, ho, hc]
  · cases h : s.armed <;> simp [LogTracker.Cleanup, h]

/-- Witness for C9 at a concrete entry with an uncompilable pattern. -/
theorem createTracker_leaks_tail_on_bad_pattern_witness :
    createTracker (fun _ _ => true) (fun _ => none)
        ⟨"/tmp/a.log", "(", ⟨"", []⟩, 0, false, ⟨"", []⟩,
          false, false, false, 0⟩
      = (none,
         [TrackerEffect.tailOpened
           ⟨"/tmp/a.log", ⟨true, true, 0, 2, false, false, false, 0⟩⟩]) := by
  have h := createTracker_leaks_tail_on_bad_pattern (fun _ _ => true)
    (fun _ => none)
    ⟨"/tmp/a.log", "(", ⟨"", []⟩, 0, false, ⟨"", []⟩, false, false, false, 0⟩
    ⟨false, 0, 0⟩ rfl rfl
  exact h.1

end LogPulse
